import Mathlib

/-!
A shallow embedding of `src/example.cc`, a minimal ownership-discipline layer:
an exclusive owning handle (`owner_ref`), a mutable non-owning view
(`shared_ref`), a read-only non-owning view (`const_ref`), and a LIFO
container of owning handles (`owning_stack`).

Modelling conventions:
- A C++ pointer `T*` is an `Option Addr` with `none` standing for `nullptr`.
- The heap is an explicit map from addresses to live objects; `new` allocates
  at the frontier `next`, `delete` removes an address from the map.
- Debug builds keep `assert` active: an operation whose assert fires is
  modelled as `Except.error Err.assertFail`.  Behaviour the C++ standard
  leaves undefined (dereferencing null, `std::stack::top`/`pop` on an empty
  stack) is `Except.error Err.ub`.  Release-build variants, where asserts are
  compiled out, carry the suffix `Rel`.
-/

namespace OwnershipExample

/-- Heap addresses. -/
abbrev Addr : Type := Nat

/-- The heap of `T` objects: a map from addresses to live objects plus an
allocation frontier from which `new` hands out fresh addresses. -/
structure Heap (T : Type) where
  mem : Addr → Option T
  next : Addr

/-- A heap is well formed when every address at or above the allocation
frontier is dead, so the frontier address really is fresh. -/
def Heap.WF {T : Type} (h : Heap T) : Prop :=
  ∀ a : Addr, h.next ≤ a → h.mem a = none

/-- The empty heap. -/
def Heap.empty (T : Type) : Heap T :=
  ⟨fun _ => none, 0⟩

/-- The effect of `delete p`: the object at address `a` ceases to exist,
every other address is untouched. -/
def Heap.free {T : Type} (h : Heap T) (a : Addr) : Heap T :=
  ⟨fun b => if b = a then none else h.mem b, h.next⟩

/-- Two kinds of fatal outcome: a failed `assert` (debug build aborts) and
behaviour the C++ standard leaves undefined. -/
inductive Err : Type
  | assertFail : Err
  | ub : Err
deriving DecidableEq

/-- `owner_ref<T>` (example.cc lines 17-62): a move-only owning handle, one
field `T* _p`; `none` is the empty (moved-from) state. -/
structure owner_ref (T : Type) where
  _p : Option Addr

/-- Move constructor `owner_ref(owner_ref&& other)` (lines 30-36):
initialises `_p` from `other._p`, asserts `other._p != nullptr`, then nulls
`other._p`.  Returns (constructed destination, source after the move). -/
def owner_ref.moveCtor {T : Type} (other : owner_ref T) :
    Except Err (owner_ref T × owner_ref T) :=
  match other._p with
  | none => .error .assertFail
  | some a => .ok (⟨some a⟩, ⟨none⟩)

/-- Move assignment `operator=(owner_ref&& other)` (lines 37-46): asserts
`other._p != nullptr`, then asserts `_p == nullptr`, then transfers the
pointer and nulls the source.  Returns (destination after, source after). -/
def owner_ref.moveAssign {T : Type} (self other : owner_ref T) :
    Except Err (owner_ref T × owner_ref T) :=
  match other._p with
  | none => .error .assertFail
  | some a =>
    match self._p with
    | some _ => .error .assertFail
    | none => .ok (⟨some a⟩, ⟨none⟩)

/-- The move constructor in a release build (`NDEBUG`): the asserts of lines
32-33 are compiled out, the pointer transfer happens unconditionally. -/
def owner_ref.moveCtorRel {T : Type} (other : owner_ref T) :
    owner_ref T × owner_ref T :=
  (⟨other._p⟩, ⟨none⟩)

/-- Move assignment in a release build: the asserts of lines 39-40 are
compiled out; `_p = other._p; other._p = nullptr` runs unconditionally,
whatever the destination held before. -/
def owner_ref.moveAssignRel {T : Type} (_self other : owner_ref T) :
    owner_ref T × owner_ref T :=
  (⟨other._p⟩, ⟨none⟩)

/-- Destructor `~owner_ref` (lines 47-53): `if (_p != nullptr) delete _p;`
a no-op on an empty handle. -/
def owner_ref.dtor {T : Type} (r : owner_ref T) (h : Heap T) : Heap T :=
  match r._p with
  | none => h
  | some a => h.free a

/-- `operator->` (line 55): returns `_p` unchecked; on an empty handle this
is the null pointer (no assert is present in the source). -/
def owner_ref.arrow {T : Type} (r : owner_ref T) : Option Addr :=
  r._p

/-- `operator*` (line 56): `return *_p;` with no check; dereferencing the
null pointer of an empty handle is undefined behaviour, and a dangling
address (object already deleted) likewise. -/
def owner_ref.star {T : Type} (r : owner_ref T) (h : Heap T) : Except Err T :=
  match r._p with
  | none => .error .ub
  | some a =>
    match h.mem a with
    | none => .error .ub
    | some v => .ok v

/-- `make_owner_ref<X>(args...)` (lines 64-68): `new X(args...)` constructs
the value `v` at the fresh frontier address and wraps it in a handle via the
private pointer constructor `owner_ref(T*)` (line 59), the only public
creation path. -/
def make_owner_ref {T : Type} (h : Heap T) (v : T) : Heap T × owner_ref T :=
  (⟨fun b => if b = h.next then some v else h.mem b, h.next + 1⟩,
   ⟨some h.next⟩)

/-- `shared_ref<T>` (lines 73-86): a copyable non-owning view, one field
`T* _p`. -/
structure shared_ref (T : Type) where
  _p : Option Addr

/-- `shared_ref(owner_ref<T>& src)` (line 79): captures `src._p`. -/
def shared_ref.fromOwner {T : Type} (src : owner_ref T) : shared_ref T :=
  ⟨src._p⟩

/-- `shared_ref::operator*` (line 82): unchecked dereference. -/
def shared_ref.star {T : Type} (r : shared_ref T) (h : Heap T) : Except Err T :=
  match r._p with
  | none => .error .ub
  | some a =>
    match h.mem a with
    | none => .error .ub
    | some v => .ok v

/-- `const_ref<T>` (lines 91-103): a copyable non-owning view holding a
`const T* _p`; its only accessors return `const T*` / `const T&`. -/
structure const_ref (T : Type) where
  _p : Option Addr

/-- `const_ref(const owner_ref<T>& src)` (line 95): captures `src._p`. -/
def const_ref.fromOwner {T : Type} (src : owner_ref T) : const_ref T :=
  ⟨src._p⟩

/-- `const_ref(const shared_ref<T>& src)` (line 96): captures `src._p`. -/
def const_ref.fromShared {T : Type} (src : shared_ref T) : const_ref T :=
  ⟨src._p⟩

/-- `const_ref::operator->` / `operator*` (lines 98-99): a read through
`const T*`.  The access is modelled as a heap transformer so the theorem can
state its frame: a read returns the looked-up value and the heap it was
given, since the const accessors expose no operation that could write. -/
def const_ref.read {T : Type} (r : const_ref T) (h : Heap T) :
    Except Err T × Heap T :=
  (match r._p with
   | none => .error .ub
   | some a =>
     match h.mem a with
     | none => .error .ub
     | some v => .ok v,
   h)

/-- `owning_stack<T>` (lines 161-184): wraps `std::stack<owner_ref<T>> _v`,
modelled as a list whose head is the top of the stack. -/
structure owning_stack (T : Type) where
  _v : List (owner_ref T)

/-- `push(owner_ref<T>&& p)` (lines 165-168): `_v.push(std::move(p))`
move-constructs the stored element from `p`, which runs `owner_ref`'s move
constructor (assert included), then places it on top. -/
def owning_stack.push {T : Type} (s : owning_stack T) (p : owner_ref T) :
    Except Err (owning_stack T) :=
  match p.moveCtor with
  | .error e => .error e
  | .ok (d, _) => .ok ⟨d :: s._v⟩

/-- `top()` (lines 170-173): `return _v.top();` converts the top element to
a `shared_ref` via the converting constructor of line 79; on an empty stack
`std::stack::top` has undefined behaviour (the source performs no check).
Returned as (result, stack after the call). -/
def owning_stack.top {T : Type} (s : owning_stack T) :
    Except Err (shared_ref T) × owning_stack T :=
  (match s._v with
   | [] => .error .ub
   | r :: _ => .ok (shared_ref.fromOwner r),
   s)

/-- `pop()` (lines 175-180) as evidently intended.  As written the source
line `owner_ref<T> r = _v.top();` copy-initialises `r` from an lvalue, and
`owner_ref`'s copy constructor is deleted (line 28), so every instantiation
of `pop` is rejected by the C++ compiler (the example program never calls
`pop`, which is why the file still compiles).  This definition models the
intent `owner_ref<T> r = std::move(_v.top());`: move the top handle out
(running the move constructor, assert included), then `_v.pop()` destroys
the now-empty stored element (a no-op destructor), then return `r`. -/
def owning_stack.pop {T : Type} (s : owning_stack T) :
    Except Err (owner_ref T × owning_stack T) :=
  match s._v with
  | [] => .error .ub
  | r :: rest =>
    match r.moveCtor with
    | .error e => .error e
    | .ok (d, _) => .ok (d, ⟨rest⟩)

/-- The stack invariant: every stored handle is non-empty. -/
def owning_stack.allNonEmpty {T : Type} (s : owning_stack T) : Prop :=
  ∀ r ∈ s._v, r._p ≠ none

/-- C1: for every non-empty owning handle, move-construction and
move-assignment (into an empty destination, as the assert of line 40
requires) transfer ownership: the source ends empty and dereferencing the
destination yields exactly the content the source held before the move. -/
theorem c1_move_transfers {T : Type} (h : Heap T) (src dst : owner_ref T)
    (a : Addr) (hs : src._p = some a) (hd : dst._p = none) :
    (∃ d s', src.moveCtor = .ok (d, s') ∧ s'._p = none ∧
      d.star h = src.star h) ∧
    (∃ d s', dst.moveAssign src = .ok (d, s') ∧ s'._p = none ∧
      d.star h = src.star h) := by
  constructor
  · refine ⟨⟨some a⟩, ⟨none⟩, ?_, rfl, ?_⟩
    · simp [owner_ref.moveCtor, hs]
    · simp [owner_ref.star, hs]
  · refine ⟨⟨some a⟩, ⟨none⟩, ?_, rfl, ?_⟩
    · simp [owner_ref.moveAssign, hs, hd]
    · simp [owner_ref.star, hs]

/-- Witness for C1 at a concrete input: a handle holding address 0 moved
into an empty handle, over the empty heap. -/
theorem c1_witness :
    ((⟨some 0⟩ : owner_ref Nat)._p = some 0) ∧
    ((⟨none⟩ : owner_ref Nat)._p = none) ∧
    ((∃ d s', (⟨some 0⟩ : owner_ref Nat).moveCtor = .ok (d, s') ∧
        s'._p = none ∧ d.star (Heap.empty Nat) =
          (⟨some 0⟩ : owner_ref Nat).star (Heap.empty Nat)) ∧
     (∃ d s', (⟨none⟩ : owner_ref Nat).moveAssign ⟨some 0⟩ = .ok (d, s') ∧
        s'._p = none ∧ d.star (Heap.empty Nat) =
          (⟨some 0⟩ : owner_ref Nat).star (Heap.empty Nat))) :=
  ⟨rfl, rfl, c1_move_transfers (Heap.empty Nat) ⟨some 0⟩ ⟨none⟩ 0 rfl rfl⟩

/-- C2: the destructor of a handle holding address `a` kills exactly `a`
and touches no other address; the destructor of an empty (moved-from)
handle is the identity on the heap; and after a move the emptied source
deallocates nothing while the destination's destructor frees the one
allocation — so the payload is deleted exactly once, with no double-free
and no leak. -/
theorem c2_dtor_frees_exactly_once {T : Type} (h : Heap T)
    (r : owner_ref T) (a : Addr) (hp : r._p = some a) :
    ((r.dtor h).mem a = none ∧
      (∀ b : Addr, b ≠ a → (r.dtor h).mem b = h.mem b)) ∧
    (∀ e : owner_ref T, e._p = none → e.dtor h = h) ∧
    (r.moveCtor = .ok (⟨some a⟩, ⟨none⟩) ∧
      owner_ref.dtor (⟨none⟩ : owner_ref T) h = h ∧
      (owner_ref.dtor (⟨some a⟩ : owner_ref T) h).mem a = none ∧
      owner_ref.dtor (⟨some a⟩ : owner_ref T) h = r.dtor h) := by
  refine ⟨⟨?_, ?_⟩, ?_, ?_, ?_, ?_, ?_⟩
  · simp [owner_ref.dtor, hp, Heap.free]
  · intro b hb
    simp [owner_ref.dtor, hp, Heap.free, hb]
  · intro e he
    simp [owner_ref.dtor, he]
  · simp [owner_ref.moveCtor, hp]
  · simp [owner_ref.dtor]
  · simp [owner_ref.dtor, Heap.free]
  · simp [owner_ref.dtor, hp]

/-- Witness for C2 at a concrete input: a handle holding address 0, over
the heap produced by one allocation of the value 5. -/
theorem c2_witness :
    ((⟨some 0⟩ : owner_ref Nat)._p = some 0) ∧
    (let h := (make_owner_ref (Heap.empty Nat) 5).1
     ((owner_ref.dtor (⟨some 0⟩ : owner_ref Nat) h).mem 0 = none ∧
       (∀ b : Addr, b ≠ 0 →
         (owner_ref.dtor (⟨some 0⟩ : owner_ref Nat) h).mem b = h.mem b)) ∧
     (∀ e : owner_ref Nat, e._p = none → e.dtor h = h) ∧
     ((⟨some 0⟩ : owner_ref Nat).moveCtor = .ok (⟨some 0⟩, ⟨none⟩) ∧
       owner_ref.dtor (⟨none⟩ : owner_ref Nat) h = h ∧
       (owner_ref.dtor (⟨some 0⟩ : owner_ref Nat) h).mem 0 = none ∧
       owner_ref.dtor (⟨some 0⟩ : owner_ref Nat) h =
         owner_ref.dtor (⟨some 0⟩ : owner_ref Nat) h)) :=
  ⟨rfl, c2_dtor_frees_exactly_once
    (make_owner_ref (Heap.empty Nat) 5).1 ⟨some 0⟩ 0 rfl⟩

/-- C3: every access path `const_ref` exposes is read-only: a read through
a `const_ref` returns the heap unchanged, repeating the read yields the
same value, and a `const_ref` built from an owning handle or a mutable view
observes exactly what its source observes — so the referenced object is
unchanged after any use of a `const_ref`.  (That mutation through it is
rejected at compile time is visible in the source: the accessors of lines
98-99 hand out only `const T*` / `const T&`, and line 137's commented-out
mutating call documents the discarding-qualifiers compile error.) -/
theorem c3_const_ref_reads_only {T : Type} (h : Heap T) (r : const_ref T)
    (o : owner_ref T) (s : shared_ref T) :
    ((r.read h).2 = h) ∧
    ((r.read ((r.read h).2)).1 = (r.read h).1) ∧
    (((const_ref.fromOwner o).read h).2 = h ∧
      ((const_ref.fromOwner o).read h).1 = o.star h) ∧
    (((const_ref.fromShared s).read h).2 = h ∧
      ((const_ref.fromShared s).read h).1 = s.star h) := by
  refine ⟨rfl, rfl, ⟨rfl, ?_⟩, ⟨rfl, ?_⟩⟩
  · cases hp : o._p <;>
      simp [const_ref.read, const_ref.fromOwner, owner_ref.star, hp]
  · cases hp : s._p <;>
      simp [const_ref.read, const_ref.fromShared, shared_ref.star, hp]

/-- C4: for every stack state and every non-empty handle `p`, `push p`
immediately followed by `pop` succeeds, returns a handle holding the same
address as `p` (so dereferencing it yields the content `p` held before the
push) and leaves the stack exactly as it was before the push — size and
contents preserved.  Proved about `owning_stack.pop` as intended; the
source's `pop` body is ill-formed C++ (see its doc comment). -/
theorem c4_push_pop_roundtrip {T : Type} (h : Heap T) (s : owning_stack T)
    (p : owner_ref T) (a : Addr) (hp : p._p = some a) :
    ∃ s₁ r, s.push p = .ok s₁ ∧ s₁.pop = .ok (r, s) ∧
      r._p = p._p ∧ r.star h = p.star h := by
  refine ⟨⟨⟨some a⟩ :: s._v⟩, ⟨some a⟩, ?_, ?_, ?_, ?_⟩
  · simp [owning_stack.push, owner_ref.moveCtor, hp]
  · simp [owning_stack.pop, owner_ref.moveCtor]
  · simp [hp]
  · simp [owner_ref.star, hp]

/-- Witness for C4 at a concrete input: pushing a handle holding address 0
onto the empty stack, over the heap with one allocation of the value 7. -/
theorem c4_witness :
    ((⟨some 0⟩ : owner_ref Nat)._p = some 0) ∧
    (∃ s₁ r, (⟨[]⟩ : owning_stack Nat).push ⟨some 0⟩ = .ok s₁ ∧
      s₁.pop = .ok (r, ⟨[]⟩) ∧
      r._p = (⟨some 0⟩ : owner_ref Nat)._p ∧
      r.star (make_owner_ref (Heap.empty Nat) 7).1 =
        (⟨some 0⟩ : owner_ref Nat).star (make_owner_ref (Heap.empty Nat) 7).1) :=
  ⟨rfl, c4_push_pop_roundtrip (make_owner_ref (Heap.empty Nat) 7).1
    ⟨[]⟩ ⟨some 0⟩ 0 rfl⟩

/-- C5: `top` never changes the stack, and it observes the most recently
pushed not-yet-popped element: after pushing `rA` then `rB`, `top`
dereferences to what `rB` referenced; after one `pop`, `top` dereferences
to what `rA` referenced (LIFO ordering).  The `pop` step uses
`owning_stack.pop` as intended (see C4). -/
theorem c5_top_lifo {T : Type} (h : Heap T) (s : owning_stack T)
    (rA rB : owner_ref T) (pA pB : Addr)
    (hA : rA._p = some pA) (hB : rB._p = some pB) :
    (∀ t : owning_stack T, t.top.2 = t) ∧
    (∃ s₁ s₂ vB, s.push rA = .ok s₁ ∧ s₁.push rB = .ok s₂ ∧
      s₂.top.1 = .ok vB ∧ vB.star h = rB.star h ∧
      (∃ r vA, s₂.pop = .ok (r, s₁) ∧ s₁.top.1 = .ok vA ∧
        vA.star h = rA.star h)) := by
  refine ⟨fun t => rfl,
    ⟨⟨some pA⟩ :: s._v⟩, ⟨⟨some pB⟩ :: ⟨some pA⟩ :: s._v⟩,
    shared_ref.fromOwner ⟨some pB⟩, ?_, ?_, ?_, ?_,
    ⟨some pB⟩, shared_ref.fromOwner ⟨some pA⟩, ?_, ?_, ?_⟩
  · simp [owning_stack.push, owner_ref.moveCtor, hA]
  · simp [owning_stack.push, owner_ref.moveCtor, hB]
  · simp [owning_stack.top]
  · simp [shared_ref.star, shared_ref.fromOwner, owner_ref.star, hB]
  · simp [owning_stack.pop, owner_ref.moveCtor]
  · simp [owning_stack.top]
  · simp [shared_ref.star, shared_ref.fromOwner, owner_ref.star, hA]

/-- Witness for C5 at a concrete input: the empty stack, handles holding
addresses 0 and 1, over the heap with two allocations (values 1 and 2). -/
theorem c5_witness :
    ((⟨some 0⟩ : owner_ref Nat)._p = some 0) ∧
    ((⟨some 1⟩ : owner_ref Nat)._p = some 1) ∧
    (let h := (make_owner_ref (make_owner_ref (Heap.empty Nat) 1).1 2).1
     (∀ t : owning_stack Nat, t.top.2 = t) ∧
     (∃ s₁ s₂ vB, (⟨[]⟩ : owning_stack Nat).push ⟨some 0⟩ = .ok s₁ ∧
       s₁.push ⟨some 1⟩ = .ok s₂ ∧
       s₂.top.1 = .ok vB ∧ vB.star h = (⟨some 1⟩ : owner_ref Nat).star h ∧
       (∃ r vA, s₂.pop = .ok (r, s₁) ∧ s₁.top.1 = .ok vA ∧
         vA.star h = (⟨some 0⟩ : owner_ref Nat).star h))) :=
  ⟨rfl, rfl, c5_top_lifo
    (make_owner_ref (make_owner_ref (Heap.empty Nat) 1).1 2).1
    ⟨[]⟩ ⟨some 0⟩ ⟨some 1⟩ 0 1 rfl rfl⟩

/-- C6: over any well-formed heap, `make_owner_ref` yields a non-empty
handle holding the fresh frontier address (an address that held no live
object before), and dereferencing that handle in the new heap yields
exactly the constructed value `v` — the `T` built from the constructor
arguments. -/
theorem c6_make_owner_ref {T : Type} (h : Heap T) (v : T) (hwf : h.WF) :
    (make_owner_ref h v).2._p = some h.next ∧
    (make_owner_ref h v).2._p ≠ none ∧
    h.mem h.next = none ∧
    (make_owner_ref h v).2.star (make_owner_ref h v).1 = .ok v := by
  refine ⟨rfl, by simp [make_owner_ref], hwf h.next le_rfl, ?_⟩
  simp [make_owner_ref, owner_ref.star]

/-- Witness for C6 at a concrete input: allocating the value 9 on the empty
heap, which is well formed. -/
theorem c6_witness :
    (Heap.empty Nat).WF ∧
    ((make_owner_ref (Heap.empty Nat) 9).2._p = some (Heap.empty Nat).next ∧
     (make_owner_ref (Heap.empty Nat) 9).2._p ≠ none ∧
     (Heap.empty Nat).mem (Heap.empty Nat).next = none ∧
     (make_owner_ref (Heap.empty Nat) 9).2.star
       (make_owner_ref (Heap.empty Nat) 9).1 = .ok 9) :=
  ⟨fun _ _ => rfl, c6_make_owner_ref (Heap.empty Nat) 9 (fun _ _ => rfl)⟩

/-- C7: moving again from an already-empty (moved-from) handle: in a debug
build both the move constructor and move assignment abort on the assert of
line 32 resp. 39 before any state change; in a release build the
destination ends empty (move-construction) or, for move-assignment into an
empty destination, is left exactly as it was, and destroying either
resulting destination deallocates nothing — no double-free. -/
theorem c7_move_from_empty {T : Type} (h : Heap T) (src dst : owner_ref T)
    (hs : src._p = none) (hd : dst._p = none) :
    (src.moveCtor = .error .assertFail) ∧
    (dst.moveAssign src = .error .assertFail) ∧
    (src.moveCtorRel.1._p = none) ∧
    (dst.moveAssignRel src = (dst, src)) ∧
    (src.moveCtorRel.1.dtor h = h) ∧
    ((dst.moveAssignRel src).1.dtor h = h) := by
  obtain ⟨p⟩ := src
  obtain ⟨q⟩ := dst
  simp only at hs hd
  subst hs hd
  refine ⟨rfl, rfl, rfl, rfl, rfl, rfl⟩

/-- Witness for C7 at a concrete input: two empty handles over the empty
heap. -/
theorem c7_witness :
    ((⟨none⟩ : owner_ref Nat)._p = none) ∧
    (((⟨none⟩ : owner_ref Nat).moveCtor = .error .assertFail) ∧
     ((⟨none⟩ : owner_ref Nat).moveAssign ⟨none⟩ = .error .assertFail) ∧
     ((⟨none⟩ : owner_ref Nat).moveCtorRel.1._p = none) ∧
     ((⟨none⟩ : owner_ref Nat).moveAssignRel ⟨none⟩ = (⟨none⟩, ⟨none⟩)) ∧
     ((⟨none⟩ : owner_ref Nat).moveCtorRel.1.dtor (Heap.empty Nat) =
       Heap.empty Nat) ∧
     (((⟨none⟩ : owner_ref Nat).moveAssignRel ⟨none⟩).1.dtor
       (Heap.empty Nat) = Heap.empty Nat)) :=
  ⟨rfl, c7_move_from_empty (Heap.empty Nat) ⟨none⟩ ⟨none⟩ rfl rfl⟩

/-- C8 counterexample: the claim says `top()` / `pop()` on an empty stack
is surfaced by an assertion abort in a debug build; but `owning_stack::top`
and `pop` contain no assert at all — on the concrete empty stack the
outcome is undefined behaviour of the underlying `std::stack`, not an
assertion failure. -/
theorem c8_counterexample :
    (⟨[]⟩ : owning_stack Nat).top.1 ≠ .error .assertFail ∧
    (⟨[]⟩ : owning_stack Nat).pop ≠ .error .assertFail := by
  constructor
  · simp [owning_stack.top]
  · simp [owning_stack.pop]

/-- C8 as amended: calling `top()` or `pop()` on an empty owning stack
violates the precondition of `std::stack::top` / `pop` and is undefined
behaviour in every build — no value is meaningfully returned, and since the
source performs no check, no assertion abort is guaranteed even in a debug
build. -/
theorem c8_empty_stack_undefined {T : Type} :
    (⟨[]⟩ : owning_stack T).top.1 = .error .ub ∧
    (⟨[]⟩ : owning_stack T).pop = .error .ub :=
  ⟨rfl, rfl⟩

/-- C9 counterexample: the claim says dereferencing an empty handle
triggers an assertion in a debug build; but `operator->` and `operator*`
(lines 55-56) contain no assert — on the concrete empty handle `operator->`
returns the null pointer and `operator*` is undefined behaviour, not an
assertion failure. -/
theorem c9_counterexample :
    owner_ref.star (⟨none⟩ : owner_ref Nat) (Heap.empty Nat) =
      .error .ub ∧
    owner_ref.star (⟨none⟩ : owner_ref Nat) (Heap.empty Nat) ≠
      .error .assertFail ∧
    owner_ref.arrow (⟨none⟩ : owner_ref Nat) = none := by
  refine ⟨rfl, ?_, rfl⟩
  simp [owner_ref.star]

/-- C9 as amended: dereferencing an empty (moved-from) owning handle is
undefined and gives access to no object — `operator->` hands back the null
pointer and `operator*` dereferences it, undefined behaviour — but the
dereference operators perform no check, so no assertion is triggered in any
build. -/
theorem c9_empty_deref_undefined {T : Type} (h : Heap T)
    (e : owner_ref T) (he : e._p = none) :
    e.arrow = none ∧ e.star h = .error .ub := by
  simp [owner_ref.arrow, owner_ref.star, he]

/-- Witness for C9 at a concrete input: the empty handle over the empty
heap. -/
theorem c9_witness :
    ((⟨none⟩ : owner_ref Nat)._p = none) ∧
    ((⟨none⟩ : owner_ref Nat).arrow = none ∧
     (⟨none⟩ : owner_ref Nat).star (Heap.empty Nat) = .error .ub) :=
  ⟨rfl, c9_empty_deref_undefined (Heap.empty Nat) ⟨none⟩ rfl⟩

/-- C10: the null-exactly-when-moved-from invariant across the operations a
client can reach.  `make_owner_ref`, the only public creation path (default
and copy construction are deleted, the pointer constructor is private),
yields a handle holding the fresh, previously-dead frontier address; a
successful move (construction or assignment) leaves exactly the source
null and the destination holding the source's non-null pointer; `push`
preserves the all-non-empty stack invariant; `pop` on a stack satisfying it
returns a non-empty handle and preserves it. -/
theorem c10_null_iff_moved_from {T : Type} (h : Heap T) (v : T)
    (hwf : h.WF) :
    ((make_owner_ref h v).2._p = some h.next ∧ h.mem h.next = none) ∧
    (∀ r d s' : owner_ref T, r.moveCtor = .ok (d, s') →
      s'._p = none ∧ d._p = r._p ∧ d._p ≠ none) ∧
    (∀ self r d s' : owner_ref T, self.moveAssign r = .ok (d, s') →
      s'._p = none ∧ d._p = r._p ∧ d._p ≠ none) ∧
    (∀ (s : owning_stack T) (p : owner_ref T) (s₁ : owning_stack T),
      s.push p = .ok s₁ → s.allNonEmpty → s₁.allNonEmpty) ∧
    (∀ (s : owning_stack T) (r : owner_ref T) (s₂ : owning_stack T),
      s.pop = .ok (r, s₂) → s.allNonEmpty →
        r._p ≠ none ∧ s₂.allNonEmpty) := by
  refine ⟨⟨rfl, hwf h.next le_rfl⟩, ?_, ?_, ?_, ?_⟩
  · intro r d s' hmv
    cases hp : r._p with
    | none => simp [owner_ref.moveCtor, hp] at hmv
    | some a =>
      simp [owner_ref.moveCtor, hp] at hmv
      obtain ⟨h1, h2⟩ := hmv
      subst h1 h2
      simp [hp]
  · intro self r d s' hmv
    cases hp : r._p with
    | none => simp [owner_ref.moveAssign, hp] at hmv
    | some a =>
      cases hq : self._p with
      | some b => simp [owner_ref.moveAssign, hp, hq] at hmv
      | none =>
        simp [owner_ref.moveAssign, hp, hq] at hmv
        obtain ⟨h1, h2⟩ := hmv
        subst h1 h2
        simp [hp]
  · intro s p s₁ hps hinv
    cases hp : p._p with
    | none => simp [owning_stack.push, owner_ref.moveCtor, hp] at hps
    | some a =>
      simp [owning_stack.push, owner_ref.moveCtor, hp] at hps
      subst hps
      intro r hr
      rcases List.mem_cons.mp hr with h1 | h2
      · subst h1
        simp
      · exact hinv r h2
  · intro s r s₂ hpp hinv
    cases hv : s._v with
    | nil => simp [owning_stack.pop, hv] at hpp
    | cons hd tl =>
      cases hp : hd._p with
      | none =>
        simp [owning_stack.pop, hv, owner_ref.moveCtor, hp] at hpp
      | some a =>
        simp [owning_stack.pop, hv, owner_ref.moveCtor, hp] at hpp
        obtain ⟨h1, h2⟩ := hpp
        subst h1 h2
        constructor
        · simp
        · intro x hx
          exact hinv x (by rw [hv]; exact List.mem_cons_of_mem hd hx)

/-- Witness for C10 at a concrete input: the empty heap (well formed) and
the value 3. -/
theorem c10_witness :
    (Heap.empty Nat).WF ∧
    (((make_owner_ref (Heap.empty Nat) 3).2._p =
        some (Heap.empty Nat).next ∧
      (Heap.empty Nat).mem (Heap.empty Nat).next = none) ∧
     (∀ r d s' : owner_ref Nat, r.moveCtor = .ok (d, s') →
       s'._p = none ∧ d._p = r._p ∧ d._p ≠ none) ∧
     (∀ self r d s' : owner_ref Nat, self.moveAssign r = .ok (d, s') →
       s'._p = none ∧ d._p = r._p ∧ d._p ≠ none) ∧
     (∀ (s : owning_stack Nat) (p : owner_ref Nat) (s₁ : owning_stack Nat),
       s.push p = .ok s₁ → s.allNonEmpty → s₁.allNonEmpty) ∧
     (∀ (s : owning_stack Nat) (r : owner_ref Nat) (s₂ : owning_stack Nat),
       s.pop = .ok (r, s₂) → s.allNonEmpty →
         r._p ≠ none ∧ s₂.allNonEmpty)) :=
  ⟨fun _ _ => rfl, c10_null_iff_moved_from (Heap.empty Nat) 3
    (fun _ _ => rfl)⟩

end OwnershipExample
